import Mathlib

/-!
Verification of the pc_limiter repository (src/main.py, src/monitor.py,
src/llm_client.py) against its natural-language specification.

The Python code is shallowly embedded: times of day are seconds since
midnight (`Nat`), absolute timestamps are seconds (`Int`), the SQLite
usage table is a list of entries, and each external subprocess invocation
is a value of an outcome type supplied by the environment.
-/

namespace PCLimiter

/-! ## Data model (monitor.py dataclasses, main.py AppConfig) -/

/-- ProcessInfo from monitor.py: one row of the process listing. -/
structure ProcessInfo where
  name : String
  pid : Int
  sessionName : String := ""
  sessionNum : Nat := 0
  memUsageKb : Nat := 0
  deriving DecidableEq, Repr

/-- ActiveWindowInfo from monitor.py: the foreground window sample. -/
structure ActiveWindowInfo where
  processName : String
  windowTitle : String
  pid : Nat := 0
  deriving DecidableEq, Repr

/-- AppConfig from main.py. Curfew bounds are seconds since midnight
(Python `datetime.time` values compare exactly like their second counts). -/
structure AppConfig where
  blacklist : List String
  curfewStart : Nat
  curfewEnd : Nat
  maxUsageSeconds : Nat
  pollInterval : Nat
  curfewBlocksAll : Bool
  deriving DecidableEq, Repr

/-! ## Python string primitives

The tool output handled here is ASCII, so Python's `str.lower()`,
`str.strip()` and `str.split` are embedded as character-list operations
(Lean core's positional `String` functions are avoided so that every
definition evaluates by kernel reduction). -/

/-- Python `str.lower()` on the ASCII names compared here. -/
def pyLower (s : String) : String := String.mk (s.data.map Char.toLower)

/-- Python `str.strip()`: drop whitespace from both ends. -/
def pyStrip (s : String) : String :=
  String.mk (((s.data.dropWhile Char.isWhitespace).reverse.dropWhile
    Char.isWhitespace).reverse)

/-- Python `str.replace(c, "")` for a one-character pattern. -/
def removeChar (c : Char) (s : String) : String :=
  String.mk (s.data.filter (fun x => x ≠ c))

/-- Splitter behind `splitChar`: fields between occurrences of `sep`,
keeping empty fields, as Python `str.split(sep)` does. -/
def splitCharAux (sep : Char) : List Char → List Char → List String
  | [], cur => [String.mk cur.reverse]
  | c :: rest, cur =>
      if c = sep then String.mk cur.reverse :: splitCharAux sep rest []
      else splitCharAux sep rest (c :: cur)

/-- Python `str.split(sep)` for a one-character separator. -/
def splitChar (sep : Char) (s : String) : List String :=
  splitCharAux sep s.data []

/-- Python `str.split()` with no argument: maximal non-whitespace runs. -/
def pySplitWsAux : List Char → List Char → List String
  | [], cur => if cur.isEmpty then [] else [String.mk cur.reverse]
  | c :: rest, cur =>
      if c.isWhitespace then
        if cur.isEmpty then pySplitWsAux rest []
        else String.mk cur.reverse :: pySplitWsAux rest []
      else pySplitWsAux rest (c :: cur)

/-- Python `str.split()` with no argument. -/
def pySplitWs (s : String) : List String := pySplitWsAux s.data []

/-! ## Curfew test (main.py `PCLimiterApp._is_curfew_time`) -/

/-- Embeds `_is_curfew_time` (main.py lines 189-199): with `s = curfew_start`,
`e = curfew_end`, `t` the current time of day, the source returns
`start <= current <= end` when `start <= end`, else
`current >= start or current <= end`. -/
def isCurfewTime (s e t : Nat) : Bool :=
  if s ≤ e then decide (s ≤ t) && decide (t ≤ e)
  else decide (t ≥ s) || decide (t ≤ e)

/-! ## Policy evaluation (main.py `PCLimiterApp._check_violations`)

`_check_violations` returns a Japanese reason string or `None`. We embed the
decision as an inductive `Violation` carrying exactly the data interpolated
into each f-string (see `violationText` for the strings themselves), and
record the monitor calls the evaluation performs as a list of `Effect`s. -/

/-- The violation returned by `_check_violations`, as the data interpolated
into the returned f-string: curfew bounds, the blacklisted app name, or the
process name with `usage // 3600`, `(usage % 3600) // 60`, and
`max_usage_seconds // 3600`. -/
inductive Violation where
  | curfew (s e : Nat)
  | blacklist (name : String)
  | usageExceeded (name : String) (hours minutes maxHours : Nat)
  deriving DecidableEq, Repr

/-- Monitor/tracker calls performed during `_check_violations`, in order. -/
inductive Effect where
  | queriedProcesses
  | killed (name : String)
  | queriedActiveWindow
  | queriedUsage (name : String)
  deriving DecidableEq, Repr

/-- What the monitor and tracker answer during one `_check_violations` run:
the process listing, the (second) foreground sample, and
`tracker.get_usage_today` as a function of the queried name. -/
structure MonitorEnv where
  running : List ProcessInfo
  activeWindow : Option ActiveWindowInfo
  usageToday : String → Nat

/-- The body of `_check_violations` (main.py lines 160-187) after the cooldown
gate: curfew check, blacklist check (with `kill_process` side effect),
usage-cap check, in that order, first match returning. -/
def checkAfterCooldown (cfg : AppConfig) (nowTod : Nat) (env : MonitorEnv) :
    Option Violation × List Effect :=
  if isCurfewTime cfg.curfewStart cfg.curfewEnd nowTod && cfg.curfewBlocksAll then
    (some (.curfew cfg.curfewStart cfg.curfewEnd), [])
  else
    let runningNames := env.running.map (fun p => pyLower p.name)
    match cfg.blacklist.find? (fun a => runningNames.contains (pyLower a)) with
    | some appName => (some (.blacklist appName), [.queriedProcesses, .killed appName])
    | none =>
      match env.activeWindow with
      | some a =>
        if a.processName = "" then
          (none, [.queriedProcesses, .queriedActiveWindow])
        else
          let usage := env.usageToday a.processName
          if cfg.maxUsageSeconds < usage then
            (some (.usageExceeded a.processName (usage / 3600) ((usage % 3600) / 60)
                (cfg.maxUsageSeconds / 3600)),
             [.queriedProcesses, .queriedActiveWindow, .queriedUsage a.processName])
          else
            (none, [.queriedProcesses, .queriedActiveWindow, .queriedUsage a.processName])
      | none => (none, [.queriedProcesses, .queriedActiveWindow])

/-- Embeds `_check_violations` (main.py lines 145-187): the cooldown gate
(`elapsed < self._intervention_cooldown` returns `None` before any other
check) followed by `checkAfterCooldown`. `lastIntervention` is
`self._last_intervention_time`, `nowAbs` the absolute time in seconds. -/
def checkViolations (cfg : AppConfig) (lastIntervention : Option Int)
    (cooldown : Nat) (nowAbs : Int) (nowTod : Nat) (env : MonitorEnv) :
    Option Violation × List Effect :=
  match lastIntervention with
  | some lastT =>
      if nowAbs - lastT < (cooldown : Int) then (none, [])
      else checkAfterCooldown cfg nowTod env
  | none => checkAfterCooldown cfg nowTod env

/-- `self._intervention_cooldown`, set to 60 in `PCLimiterApp.__init__`. -/
def interventionCooldown : Nat := 60

/-- Two-digit zero-padded rendering used by `strftime('%H:%M')`. -/
def pad2 (n : Nat) : String :=
  if n < 10 then "0" ++ toString n else toString n

/-- `time.strftime('%H:%M')` on a time of day given in seconds. -/
def formatHM (tod : Nat) : String :=
  pad2 (tod / 3600) ++ ":" ++ pad2 ((tod % 3600) / 60)

/-- The reason strings `_check_violations` actually returns, reassembled
from the `Violation` data (main.py lines 163, 173, 182-185). -/
def violationText (v : Violation) : String :=
  match v with
  | .curfew s e =>
      "深夜帯（" ++ formatHM s ++ " - " ++ formatHM e ++ "）です。PCを使うのをやめましょう。"
  | .blacklist n =>
      "禁止アプリ「" ++ n ++ "」が起動されたため、強制終了しました。"
  | .usageExceeded n h m maxH =>
      "「" ++ n ++ "」の使用時間が" ++ toString h ++ "時間" ++ toString m ++ "分に達しました。"
        ++ "上限の" ++ toString maxH ++ "時間を超えています。"

/-! ## Message generation (llm_client.py `OllamaClient.generate_scolding`) -/

/-- FALLBACK_MESSAGES from llm_client.py. -/
def fallbackMessages : List String :=
  ["⏰ PCの前で無駄な時間を過ごしていませんか？立ち上がって深呼吸しましょう。",
   "🚫 また同じアプリを開いていますね。本当にそれは今必要ですか？",
   "📚 その時間があれば、本を1章読めたはずです。優先順位を見直しましょう。",
   "🧘 集中力は有限です。一度リセットして、本当にやるべきことに取り組みましょう。",
   "⚡ 時間は取り戻せません。今この瞬間を、未来の自分のために使いましょう。"]

/-- Outcome of one Ollama chat attempt: the `ollama` package was never
imported (`self._client is None`), the request raised, or it returned a
message body. -/
inductive LlmOutcome where
  | noClient
  | requestError
  | response (s : String)
  deriving DecidableEq, Repr

/-- `OllamaClient._get_fallback`: returns the message at
`_fallback_index % len(FALLBACK_MESSAGES)` and increments the index. -/
def getFallback (idx : Nat) : String × Nat :=
  (fallbackMessages.getD (idx % fallbackMessages.length) "", idx + 1)

/-- Embeds `OllamaClient.generate_scolding` (llm_client.py lines 76-119):
no client or a raising request falls back; a response is stripped and an
empty result also falls back. Returns the message and the new
`_fallback_index`. -/
def generateScolding (o : LlmOutcome) (idx : Nat) : String × Nat :=
  match o with
  | .noClient => getFallback idx
  | .requestError => getFallback idx
  | .response s =>
      let m := pyStrip s
      if m = "" then getFallback idx else (m, idx)

/-! ## Usage ledger (monitor.py `UsageTracker`)

The SQLite table `usage_log` is embedded as a list of entries; `INSERT`
appends, and the `SUM ... WHERE date = ? AND LOWER(process_name) = LOWER(?)`
query is a filter-and-sum. Calendar days are abstracted as `Nat`. -/

/-- One row of the `usage_log` table. -/
structure UsageEntry where
  date : Nat
  processName : String
  windowTitle : String
  durationSec : Nat
  recordedAt : Int
  deriving DecidableEq, Repr

/-- Embeds `UsageTracker.record_usage` (monitor.py lines 374-394): one
INSERT of `(today, process_name, window_title, duration_sec, now)`. -/
def recordUsage (ledger : List UsageEntry) (today : Nat) (name title : String)
    (dur : Nat) (recordedAt : Int) : List UsageEntry :=
  ledger ++ [⟨today, name, title, dur, recordedAt⟩]

/-- Embeds `UsageTracker.get_usage_today` (monitor.py lines 396-418):
`SELECT COALESCE(SUM(duration_sec), 0) ... WHERE date = today AND
LOWER(process_name) = LOWER(?)`. -/
def getUsageToday (ledger : List UsageEntry) (today : Nat) (name : String) : Nat :=
  ((ledger.filter (fun e => e.date == today && pyLower e.processName == pyLower name)).map
    (fun e => e.durationSec)).sum

/-! ## Intervention coordinator (main.py `PCLimiterApp`) -/

/-- The mutable `PCLimiterApp` state touched by the poll cycle:
`_overlay_active`, `_last_intervention_time`, the client's
`_fallback_index`, and the tracker's table. -/
structure AppState where
  overlayActive : Bool
  lastInterventionTime : Option Int
  fallbackIndex : Nat
  ledger : List UsageEntry

/-- Result of `_trigger_intervention`: the updated state and the text handed
to `overlay.show_message`. -/
structure InterventionResult where
  state : AppState
  display : String

/-- Embeds `PCLimiterApp._trigger_intervention` (main.py lines 201-223):
sets `_overlay_active = True` and `_last_intervention_time = now` first,
then asks `generate_scolding` for a message (the usage context passed to it
does not affect the embedded result), and shows
`f"⚡ {violation_reason}\n\n💬 {scolding}"`. -/
def triggerIntervention (s : AppState) (nowAbs : Int) (violationReason : String)
    (llm : LlmOutcome) : InterventionResult :=
  let s1 : AppState :=
    { s with overlayActive := true, lastInterventionTime := some nowAbs }
  let sc := generateScolding llm s1.fallbackIndex
  { state := { s1 with fallbackIndex := sc.2 },
    display := "⚡ " ++ violationReason ++ "\n\n💬 " ++ sc.1 }

/-- What the environment supplies to one `_poll` tick: the first
`get_active_window` sample, the process listing and second sample consumed
by `_check_violations`, and the Ollama outcome if an intervention fires. -/
structure PollEnv where
  firstActive : Option ActiveWindowInfo
  running : List ProcessInfo
  secondActive : Option ActiveWindowInfo
  llm : LlmOutcome

/-- Step 1 of `_poll` (main.py lines 129-135): record usage for the
foreground sample unless it is absent, has an empty name, or is the
`"Unknown"` sentinel; the recorded duration is `poll_interval`. -/
def recordStep (cfg : AppConfig) (s : AppState) (today : Nat) (nowAbs : Int)
    (active : Option ActiveWindowInfo) : AppState :=
  match active with
  | some a =>
      if a.processName ≠ "" ∧ a.processName ≠ "Unknown" then
        { s with ledger := (recordUsage s.ledger today a.processName
            a.windowTitle cfg.pollInterval nowAbs) }
      else s
  | none => s

/-- Step 2 of `_poll` (main.py lines 137-140): evaluate violations, where
`get_usage_today` reads the just-updated ledger, and trigger an
intervention on a violation. -/
def evalStep (cfg : AppConfig) (s1 : AppState) (today : Nat) (nowAbs : Int)
    (nowTod : Nat) (env : PollEnv) : AppState :=
  match (checkViolations cfg s1.lastInterventionTime interventionCooldown
      nowAbs nowTod ⟨env.running, env.secondActive,
        fun n => getUsageToday s1.ledger today n⟩).1 with
  | some v => (triggerIntervention s1 nowAbs (violationText v) env.llm).state
  | none => s1

/-- Embeds `PCLimiterApp._poll` (main.py lines 122-143): skip everything
while the overlay is active, else record usage and then evaluate. -/
def poll (cfg : AppConfig) (s : AppState) (today : Nat) (nowAbs : Int)
    (nowTod : Nat) (env : PollEnv) : AppState :=
  if s.overlayActive then s
  else evalStep cfg (recordStep cfg s today nowAbs env.firstActive)
    today nowAbs nowTod env

/-! ## Process inspector (monitor.py `WindowsProcessMonitor`)

Each `subprocess.run` call is embedded as a `ToolRun` value chosen by the
environment: a completed run with exit code and captured streams, or one of
the failure modes the code catches (`TimeoutExpired`, `FileNotFoundError`,
any other `Exception`). -/

/-- Outcome of one external tool invocation. -/
inductive ToolRun where
  | ok (exitCode : Int) (stdout : String) (stderr : String)
  | timeout
  | notFound
  | failure
  deriving DecidableEq, Repr

/-- The `protected` set literal inside `kill_process` (monitor.py lines
293-295). It is local to the method and does not come from `AppConfig`. -/
def protectedProcesses : List String :=
  ["csrss.exe", "wininit.exe", "services.exe", "lsass.exe", "svchost.exe",
   "explorer.exe", "dwm.exe", "winlogon.exe", "smss.exe", "system"]

/-- Embeds `WindowsProcessMonitor.kill_process` (monitor.py lines 276-329).
Returns (result, invoked): `invoked` is whether `taskkill.exe` was run.
Empty/whitespace names and protected names (compared lower-cased) return
`False` before any invocation; otherwise success iff exit code 0. -/
def killProcess (name : String) (tool : ToolRun) : Bool × Bool :=
  if pyStrip name = "" then (false, false)
  else if pyLower name ∈ protectedProcesses then (false, false)
  else
    match tool with
    | .ok 0 _ _ => (true, true)
    | _ => (false, true)

/-! CSV reading. `_parse_tasklist_csv` iterates `csv.reader` over the raw
stdout; the reader is modelled for the tasklist output shape: records are
lines (no embedded newlines inside quoted fields), fields are
comma-separated with `"`-quoting and `""` escapes. -/

/-- Parser mode while scanning one CSV line. -/
inductive CsvMode where
  | unquoted
  | quoted
  | afterQuote

/-- Field splitter for one CSV record, accumulating the current field in
reverse and the finished fields in reverse. -/
def csvSplitAux : List Char → CsvMode → List Char → List String → List String
  | [], _, cur, acc => (String.mk cur.reverse :: acc).reverse
  | c :: rest, .unquoted, cur, acc =>
      if c = ',' then csvSplitAux rest .unquoted [] (String.mk cur.reverse :: acc)
      else if c = '"' ∧ cur = [] then csvSplitAux rest .quoted cur acc
      else csvSplitAux rest .unquoted (c :: cur) acc
  | c :: rest, .quoted, cur, acc =>
      if c = '"' then csvSplitAux rest .afterQuote cur acc
      else csvSplitAux rest .quoted (c :: cur) acc
  | c :: rest, .afterQuote, cur, acc =>
      if c = ',' then csvSplitAux rest .unquoted [] (String.mk cur.reverse :: acc)
      else if c = '"' then csvSplitAux rest .quoted ('"' :: cur) acc
      else csvSplitAux rest .unquoted (c :: cur) acc

/-- One CSV record; a blank line yields an empty row as `csv.reader` does. -/
def csvSplitLine (line : String) : List String :=
  if line = "" then [] else csvSplitAux line.data .unquoted [] []

/-- The lines `csv.reader` iterates over `io.StringIO(csv_text)`: split on
newlines, drop the empty tail after a trailing newline, strip `\r`. -/
def csvLines (text : String) : List String :=
  let ls := splitChar '\n' text
  let ls := if ls.getLast? = some "" then ls.dropLast else ls
  ls.map (fun l => if l.data.getLast? = some '\r' then String.mk l.data.dropLast else l)

/-- The row stream `csv.reader(io.StringIO(csv_text))` produces. -/
def csvReadRows (text : String) : List (List String) :=
  (csvLines text).map csvSplitLine

/-- Python `str.strip('"')`: remove leading and trailing `"` characters. -/
def stripQuotes (s : String) : String :=
  String.mk (((s.data.dropWhile (· = '"')).reverse.dropWhile (· = '"')).reverse)

/-- The `row[i].strip('"').strip()` cleaning applied to every field. -/
def cleanField (s : String) : String := pyStrip (stripQuotes s)

/-- Python `str.isdigit()` for the ASCII strings these tools emit:
non-empty and all decimal digits. -/
def pyIsDigit (s : String) : Bool := !s.data.isEmpty && s.data.all Char.isDigit

/-- Digit run as accepted by Python `int()` after its first digit: single
underscores may separate digits. -/
def pyDigitTail : List Char → Bool
  | [] => true
  | '_' :: c :: rest => c.isDigit && pyDigitTail rest
  | ['_'] => false
  | c :: rest => c.isDigit && pyDigitTail rest

/-- Decimal value of a digit run, ignoring underscore separators. -/
def natOfPyDigits (cs : List Char) : Nat :=
  (cs.filter (fun c => c ≠ '_')).foldl (fun n c => 10 * n + (c.toNat - '0'.toNat)) 0

/-- Python `int(s)` on an already-stripped string: optional sign, then
digits with optional single underscore separators; `None` when `int`
would raise `ValueError`. -/
def pyInt? (s : String) : Option Int :=
  match s.data with
  | [] => none
  | '+' :: c :: cs =>
      if c.isDigit && pyDigitTail cs then some (natOfPyDigits (c :: cs)) else none
  | ['+'] => none
  | '-' :: c :: cs =>
      if c.isDigit && pyDigitTail cs then some (-(natOfPyDigits (c :: cs) : Int)) else none
  | ['-'] => none
  | c :: cs =>
      if c.isDigit && pyDigitTail cs then some (natOfPyDigits (c :: cs)) else none

/-- Memory-field normalization (monitor.py lines 166-169):
`mem_str.replace(",", "").replace(".", "").split()`, then the first token
if it is all digits, else 0 — `"150,000 K"` becomes `150000`. -/
def parseMem (s : String) : Nat :=
  let cleaned := removeChar '.' (removeChar ',' s)
  match pySplitWs cleaned with
  | t :: _ => if pyIsDigit t then natOfPyDigits t.data else 0
  | [] => 0

/-- The per-row body of `_parse_tasklist_csv` (monitor.py lines 148-181):
skip rows with fewer than 5 fields, clean each field, skip empty names or
pids, skip pids `int()` rejects (the caught `ValueError`), default the
session number to 0 unless all digits, and normalize the memory field. -/
def parseRow (row : List String) : Option ProcessInfo :=
  if row.length < 5 then none
  else
    match row with
    | r0 :: r1 :: r2 :: r3 :: r4 :: _ =>
        let name := cleanField r0
        let pidStr := cleanField r1
        let sessionName := cleanField r2
        let sessionNumStr := cleanField r3
        let memStr := cleanField r4
        if name = "" ∨ pidStr = "" then none
        else
          match pyInt? pidStr with
          | none => none
          | some pid =>
              some ⟨name, pid, sessionName,
                if pyIsDigit sessionNumStr then natOfPyDigits sessionNumStr.data else 0,
                parseMem memStr⟩
    | _ => none

/-- The loop of `_parse_tasklist_csv` over the rows the reader produced. -/
def parseTasklistRows (rows : List (List String)) : List ProcessInfo :=
  rows.filterMap parseRow

/-- Embeds `WindowsProcessMonitor._parse_tasklist_csv` (monitor.py lines
138-184) on the raw stdout text. -/
def parseTasklistCsv (text : String) : List ProcessInfo :=
  parseTasklistRows (csvReadRows text)

/-- Embeds `WindowsProcessMonitor.get_running_processes` (monitor.py lines
95-136): every failure mode and every non-zero exit yields `[]`; a clean
exit parses the CSV stdout. -/
def getRunningProcesses (r : ToolRun) : List ProcessInfo :=
  match r with
  | .ok code out _ => if code ≠ 0 then [] else parseTasklistCsv out
  | .timeout => []
  | .notFound => []
  | .failure => []

/-- Embeds `WindowsProcessMonitor.get_active_window` (monitor.py lines
228-274): failures and non-zero exits yield no sample; the stripped stdout
is split on tabs — three or more parts give a full sample (non-digit pid
mapped to 0), exactly two give a sample with pid 0, fewer give none. -/
def getActiveWindow (r : ToolRun) : Option ActiveWindowInfo :=
  match r with
  | .ok code out _ =>
      if code ≠ 0 then none
      else
        let output := pyStrip out
        if output = "" then none
        else
          match splitChar '\t' output with
          | p0 :: p1 :: p2 :: _ =>
              some ⟨pyStrip p0, pyStrip p1,
                if pyIsDigit (pyStrip p2) then natOfPyDigits (pyStrip p2).data else 0⟩
          | [p0, p1] => some ⟨pyStrip p0, pyStrip p1, 0⟩
          | _ => none
  | .timeout => none
  | .notFound => none
  | .failure => none

/-! ## Auxiliary notions for the statements -/

/-- One `record_usage(process_name, window_title, duration_sec)` call,
together with the calendar day and timestamp at which it was issued. -/
structure RecordCall where
  day : Nat
  name : String
  title : String
  dur : Nat
  recordedAt : Int
  deriving DecidableEq, Repr

/-- Replay a sequence of `record_usage` calls against a ledger. -/
def applyRecords (calls : List RecordCall) (ledger : List UsageEntry) :
    List UsageEntry :=
  calls.foldl (fun l c => recordUsage l c.day c.name c.title c.dur c.recordedAt) ledger

/-- The `generate_scolding` failure modes the spec describes: client never
constructed, the chat request raised, or the response stripped to empty. -/
def llmFailed (o : LlmOutcome) : Prop :=
  o = .noClient ∨ o = .requestError ∨ ∃ s, o = .response s ∧ pyStrip s = ""

/-! ## Theorems -/

/-- C1 counterexample: the spec's half-open reading of the curfew window is
false on the code at curfew 01:00-06:00 and t = 06:00 (in seconds: start
3600, end 21600, t 21600): `_is_curfew_time` uses `start <= t <= end`, so a
time equal to the curfew end IS inside the window, refuting
`isCurfew(t) ⇔ start ≤ t < end`. -/
theorem curfew_halfopen_counterexample :
    ¬ (isCurfewTime 3600 21600 21600 = true ↔ 3600 ≤ 21600 ∧ 21600 < 21600) := by
  decide

/-- C1 amended: for start < end the curfew test holds exactly when
start ≤ t ≤ end (inclusive of the end), for start > end exactly when
t ≥ start or t ≤ end; in particular a time equal to the curfew end is
always inside the window. -/
theorem curfew_membership_inclusive (s e t : Nat) :
    (s < e → (isCurfewTime s e t = true ↔ s ≤ t ∧ t ≤ e)) ∧
    (e < s → (isCurfewTime s e t = true ↔ s ≤ t ∨ t ≤ e)) ∧
    isCurfewTime s e e = true := by
  refine ⟨fun h => ?_, fun h => ?_, ?_⟩
  · simp [isCurfewTime, Nat.le_of_lt h]
  · simp [isCurfewTime, Nat.not_le.mpr h]
  · by_cases h : s ≤ e <;> simp [isCurfewTime, h]

/-- Witness for `curfew_membership_inclusive` at 01:00-06:00, t = 02:30 and
at the wrapping window 23:00-06:00, t = 01:00. -/
theorem curfew_membership_inclusive_witness :
    isCurfewTime 3600 21600 9000 = true ∧ isCurfewTime 82800 21600 3600 = true :=
  ⟨((curfew_membership_inclusive 3600 21600 9000).1 (by decide)).mpr (by decide),
   ((curfew_membership_inclusive 82800 21600 3600).2.1 (by decide)).mpr (by decide)⟩

/-- C2: triggering an intervention at time T sets `_last_intervention_time`
to T, and then every `_check_violations` run at a time t with T < t and
t - T < 60 returns no violation and performs no other check at all
(the effect trace is empty), whatever the configuration, time of day and
monitor answers. -/
theorem cooldown_suppression (s : AppState) (nowT : Int) (reason : String)
    (o : LlmOutcome) :
    (triggerIntervention s nowT reason o).state.lastInterventionTime = some nowT ∧
    ∀ (cfg : AppConfig) (t : Int) (tod : Nat) (env : MonitorEnv),
      nowT < t → t - nowT < 60 →
      checkViolations cfg (triggerIntervention s nowT reason o).state.lastInterventionTime
        interventionCooldown t tod env = (none, []) := by
  constructor
  · rfl
  · intro cfg t tod env _ hlt
    have hst : (triggerIntervention s nowT reason o).state.lastInterventionTime
        = some nowT := rfl
    rw [hst]
    simp [checkViolations, interventionCooldown, hlt]

/-- Witness for `cooldown_suppression`: intervention at T = 100, tick at
t = 130 during a blocking curfew (02:30 with curfew_blocks_all); still no
violation. -/
theorem cooldown_suppression_witness :
    checkViolations ⟨[], 3600, 21600, 7200, 5, true⟩
      (triggerIntervention ⟨false, none, 0, []⟩ 100 "r" LlmOutcome.noClient).state.lastInterventionTime
      interventionCooldown 130 9000 ⟨[], none, fun _ => 0⟩ = (none, []) :=
  (cooldown_suppression ⟨false, none, 0, []⟩ 100 "r" LlmOutcome.noClient).2
    ⟨[], 3600, 21600, 7200, 5, true⟩ 130 9000 ⟨[], none, fun _ => 0⟩
    (by decide) (by decide)

/-- C4: any process name whose lower-cased form is in the fixed protected
set is refused by `kill_process` - `False` is returned and `taskkill.exe`
is never invoked - for every tool outcome and every policy configuration
(the protected set is a literal inside the method; no configuration value
reaches it). -/
theorem protected_kill_refused (_cfg : AppConfig) (name : String)
    (tool : ToolRun) (h : pyLower name ∈ protectedProcesses) :
    killProcess name tool = (false, false) := by
  unfold killProcess
  by_cases h0 : pyStrip name = ""
  · rw [if_pos h0]
  · rw [if_neg h0, if_pos h]

/-- Witness for `protected_kill_refused`: killing "EXPLORER.EXE" fails
without invocation even when the tool would report success. -/
theorem protected_kill_refused_witness :
    killProcess "EXPLORER.EXE" (ToolRun.ok 0 "" "") = (false, false) :=
  protected_kill_refused ⟨[], 0, 0, 0, 0, false⟩ "EXPLORER.EXE"
    (ToolRun.ok 0 "" "") (by decide)

/-- C3: first match wins in the fixed check order. During curfew
01:00-06:00 at 02:30 with curfew_blocks_all, evaluation returns the Curfew
violation with an empty effect trace (neither the process listing nor the
foreground window is consulted, whatever the monitor would answer); and
with blacklist ["chrome.exe"] and a running process named chrome.exe up to
case, evaluation returns the Blacklist violation naming "chrome.exe" after
querying the process list and invoking `kill_process("chrome.exe")`. -/
theorem check_order_first_match :
    (∀ (bl : List String) (maxU pI : Nat) (env : MonitorEnv) (nowAbs : Int),
      checkViolations ⟨bl, 3600, 21600, maxU, pI, true⟩ none interventionCooldown
        nowAbs 9000 env = (some (.curfew 3600 21600), [])) ∧
    (∀ (cfg : AppConfig) (env : MonitorEnv) (nowAbs : Int) (tod : Nat),
      cfg.blacklist = ["chrome.exe"] →
      (isCurfewTime cfg.curfewStart cfg.curfewEnd tod && cfg.curfewBlocksAll) = false →
      (∃ p ∈ env.running, pyLower p.name = "chrome.exe") →
      checkViolations cfg none interventionCooldown nowAbs tod env =
        (some (.blacklist "chrome.exe"),
          [Effect.queriedProcesses, Effect.killed "chrome.exe"])) := by
  constructor
  · intro bl maxU pI env nowAbs
    simp [checkViolations, checkAfterCooldown,
      show isCurfewTime 3600 21600 9000 = true from by decide]
  · intro cfg env nowAbs tod hbl hcf hex
    obtain ⟨p, hp, hlow⟩ := hex
    have hcont : (env.running.map (fun q => pyLower q.name)).contains "chrome.exe"
        = true := List.elem_iff.mpr (List.mem_map.mpr ⟨p, hp, hlow⟩)
    have hfind : cfg.blacklist.find?
        (fun b => (env.running.map (fun q => pyLower q.name)).contains (pyLower b))
        = some "chrome.exe" := by
      rw [hbl]
      refine List.find?_cons_of_pos _ ?_
      simpa [show pyLower "chrome.exe" = "chrome.exe" from by decide] using hcont
    simp only [checkViolations, checkAfterCooldown]
    rw [if_neg (by simp [hcf])]
    rw [hfind]

/-- Witness for `check_order_first_match`: the curfew scenario and a
blacklist scenario where "CHROME.exe" is running in mixed case. -/
theorem check_order_first_match_witness :
    checkViolations ⟨["chrome.exe"], 3600, 21600, 7200, 5, true⟩ none
      interventionCooldown 0 9000 ⟨[], none, fun _ => 0⟩ =
      (some (.curfew 3600 21600), []) ∧
    checkViolations ⟨["chrome.exe"], 3600, 21600, 7200, 5, true⟩ none
      interventionCooldown 0 43200 ⟨[⟨"CHROME.exe", 1, "", 0, 0⟩], none, fun _ => 0⟩ =
      (some (.blacklist "chrome.exe"),
        [Effect.queriedProcesses, Effect.killed "chrome.exe"]) :=
  ⟨check_order_first_match.1 ["chrome.exe"] 7200 5 ⟨[], none, fun _ => 0⟩ 0,
   check_order_first_match.2 ⟨["chrome.exe"], 3600, 21600, 7200, 5, true⟩
     ⟨[⟨"CHROME.exe", 1, "", 0, 0⟩], none, fun _ => 0⟩ 0 43200 rfl (by decide)
     ⟨⟨"CHROME.exe", 1, "", 0, 0⟩, by simp, by decide⟩⟩

/-- C6: with the cooldown, curfew and blacklist checks all passing, the
usage-cap check is skipped (returning no violation) when there is no
foreground sample, and otherwise fires exactly when today's accumulated
seconds for the foreground process STRICTLY exceed max_usage_seconds,
reporting hours = usage / 3600 and minutes = (usage % 3600) / 60 by integer
division; concretely, max 7200 with usage 7300 yields hours 2, minutes 1. -/
theorem usage_cap_strict :
    (∀ (cfg : AppConfig) (nowAbs : Int) (tod : Nat) (env : MonitorEnv),
      (isCurfewTime cfg.curfewStart cfg.curfewEnd tod && cfg.curfewBlocksAll) = false →
      cfg.blacklist.find?
        (fun b => (env.running.map (fun p => pyLower p.name)).contains (pyLower b)) = none →
      env.activeWindow = none →
      checkViolations cfg none interventionCooldown nowAbs tod env =
        (none, [Effect.queriedProcesses, Effect.queriedActiveWindow])) ∧
    (∀ (cfg : AppConfig) (nowAbs : Int) (tod : Nat) (env : MonitorEnv)
        (a : ActiveWindowInfo),
      (isCurfewTime cfg.curfewStart cfg.curfewEnd tod && cfg.curfewBlocksAll) = false →
      cfg.blacklist.find?
        (fun b => (env.running.map (fun p => pyLower p.name)).contains (pyLower b)) = none →
      env.activeWindow = some a → a.processName ≠ "" →
      ((checkViolations cfg none interventionCooldown nowAbs tod env).1 =
          some (.usageExceeded a.processName (env.usageToday a.processName / 3600)
            ((env.usageToday a.processName % 3600) / 60) (cfg.maxUsageSeconds / 3600)) ↔
        cfg.maxUsageSeconds < env.usageToday a.processName)) ∧
    checkViolations ⟨[], 3600, 21600, 7200, 5, true⟩ none interventionCooldown 0 43200
      ⟨[], some ⟨"app.exe", "", 0⟩, fun _ => 7300⟩ =
      (some (.usageExceeded "app.exe" 2 1 2),
        [Effect.queriedProcesses, Effect.queriedActiveWindow,
          Effect.queriedUsage "app.exe"]) := by
  refine ⟨?_, ?_, by decide⟩
  · intro cfg nowAbs tod env hcf hfind hact
    simp only [checkViolations, checkAfterCooldown]
    rw [if_neg (by simp [hcf])]
    rw [hfind, hact]
  · intro cfg nowAbs tod env a hcf hfind hact hname
    simp only [checkViolations, checkAfterCooldown]
    rw [if_neg (by simp [hcf])]
    rw [hfind, hact]
    by_cases hu : cfg.maxUsageSeconds < env.usageToday a.processName
    · simp [hname, hu]
    · simp [hname, hu]

/-- Witness for `usage_cap_strict`: no foreground sample yields no
violation; a foreground "app.exe" at 7300 accumulated seconds against a
7200-second cap yields UsageExceeded with hours 2, minutes 1. -/
theorem usage_cap_strict_witness :
    checkViolations ⟨[], 3600, 21600, 7200, 5, true⟩ none interventionCooldown 0 43200
      ⟨[], none, fun _ => 0⟩ =
      (none, [Effect.queriedProcesses, Effect.queriedActiveWindow]) ∧
    (checkViolations ⟨[], 3600, 21600, 7200, 5, true⟩ none interventionCooldown 0 43200
      ⟨[], some ⟨"app.exe", "", 0⟩, fun _ => 7300⟩).1 =
      some (.usageExceeded "app.exe" 2 1 2) :=
  ⟨usage_cap_strict.1 ⟨[], 3600, 21600, 7200, 5, true⟩ 0 43200
     ⟨[], none, fun _ => 0⟩ (by decide) rfl rfl,
   (usage_cap_strict.2.1 ⟨[], 3600, 21600, 7200, 5, true⟩ 0 43200
     ⟨[], some ⟨"app.exe", "", 0⟩, fun _ => 7300⟩ ⟨"app.exe", "", 0⟩
     (by decide) rfl rfl (by decide)).mpr (by decide)⟩

/-- Replaying `record_usage` calls appends exactly one entry per call. -/
theorem applyRecords_append_form (calls : List RecordCall) (L : List UsageEntry) :
    applyRecords calls L =
      L ++ calls.map (fun c => ⟨c.day, c.name, c.title, c.dur, c.recordedAt⟩) := by
  induction calls generalizing L with
  | nil => simp [applyRecords]
  | cons c cs ih =>
      show applyRecords cs (recordUsage L c.day c.name c.title c.dur c.recordedAt) = _
      rw [ih]
      simp [recordUsage]

/-- C5: after any sequence of `record_usage` calls, `get_usage_today` for a
name and a query day returns exactly the sum of the durations of the calls
made for that name (case-insensitively) on that day; and an entry recorded
on day D contributes nothing to a query on day D + 1. -/
theorem usage_today_sums_exactly :
    (∀ (calls : List RecordCall) (q : Nat) (name : String),
      getUsageToday (applyRecords calls []) q name =
        ((calls.filter (fun c => c.day == q && pyLower c.name == pyLower name)).map
          (fun c => c.dur)).sum) ∧
    (∀ (ledger : List UsageEntry) (c : RecordCall) (name : String),
      getUsageToday
        (recordUsage ledger c.day c.name c.title c.dur c.recordedAt)
        (c.day + 1) name =
      getUsageToday ledger (c.day + 1) name) := by
  constructor
  · intro calls q name
    rw [applyRecords_append_form, List.nil_append]
    unfold getUsageToday
    rw [List.filter_map, List.map_map]
    rfl
  · intro ledger c name
    have hne : (c.day == c.day + 1) = false :=
      beq_eq_false_iff_ne.mpr (by omega)
    unfold recordUsage getUsageToday
    rw [List.filter_append]
    simp [hne]

/-- Witness for `usage_today_sums_exactly`: two same-day records for
"App.EXE"/"app.exe" sum to 10 on that day; a record on day 3 leaves a
day-4 query at 0. -/
theorem usage_today_sums_exactly_witness :
    getUsageToday (applyRecords
      [⟨3, "App.EXE", "t", 7, 0⟩, ⟨3, "app.exe", "u", 3, 1⟩, ⟨2, "app.exe", "v", 9, 2⟩]
      []) 3 "APP.exe" = 10 ∧
    getUsageToday (recordUsage [] 3 "app.exe" "t" 7 0) 4 "app.exe" = 0 :=
  ⟨(usage_today_sums_exactly.1
      [⟨3, "App.EXE", "t", 7, 0⟩, ⟨3, "app.exe", "u", 3, 1⟩, ⟨2, "app.exe", "v", 9, 2⟩]
      3 "APP.exe").trans (by decide),
   (usage_today_sums_exactly.2 [] ⟨3, "app.exe", "t", 7, 0⟩ "app.exe").trans rfl⟩

/-- The single-row equation of `parseRow` on a row with at least the five
required fields. -/
theorem parseRow_cons_eq (r0 r1 r2 r3 r4 : String) (tl : List String) :
    parseRow (r0 :: r1 :: r2 :: r3 :: r4 :: tl) =
      (if cleanField r0 = "" ∨ cleanField r1 = "" then none
       else
        match pyInt? (cleanField r1) with
        | none => none
        | some pid =>
            some ⟨cleanField r0, pid, cleanField r2,
              if pyIsDigit (cleanField r3) then natOfPyDigits (cleanField r3).data else 0,
              parseMem (cleanField r4)⟩) := by
  unfold parseRow
  rw [if_neg (by simp only [List.length_cons]; omega)]

/-- C7: row-scoped defensive parsing. A row with fewer than five fields,
an empty (cleaned) name field, or a pid field that `int()` rejects is
dropped while the remaining rows parse exactly as they would alone; and
the memory normalization turns "150,000 K" into 150000, as in the fully
parsed well-formed row. -/
theorem row_defensive_parsing :
    (∀ (bad : List String) (rows : List (List String)), bad.length < 5 →
      parseTasklistRows (bad :: rows) = parseTasklistRows rows) ∧
    (∀ (r0 r1 r2 r3 r4 : String) (tl : List String) (rows : List (List String)),
      cleanField r0 = "" →
      parseTasklistRows ((r0 :: r1 :: r2 :: r3 :: r4 :: tl) :: rows) =
        parseTasklistRows rows) ∧
    (∀ (r0 r1 r2 r3 r4 : String) (tl : List String) (rows : List (List String)),
      pyInt? (cleanField r1) = none →
      parseTasklistRows ((r0 :: r1 :: r2 :: r3 :: r4 :: tl) :: rows) =
        parseTasklistRows rows) ∧
    parseMem "150,000 K" = 150000 ∧
    parseRow ["chrome.exe", "12345", "Console", "1", "150,000 K"] =
      some ⟨"chrome.exe", 12345, "Console", 1, 150000⟩ := by
  refine ⟨?_, ?_, ?_, by decide, by decide⟩
  · intro bad rows h
    have hnone : parseRow bad = none := by
      unfold parseRow
      rw [if_pos h]
    simp [parseTasklistRows, List.filterMap_cons, hnone]
  · intro r0 r1 r2 r3 r4 tl rows h
    have hnone : parseRow (r0 :: r1 :: r2 :: r3 :: r4 :: tl) = none := by
      rw [parseRow_cons_eq, if_pos (Or.inl h)]
    simp [parseTasklistRows, List.filterMap_cons, hnone]
  · intro r0 r1 r2 r3 r4 tl rows h
    have hnone : parseRow (r0 :: r1 :: r2 :: r3 :: r4 :: tl) = none := by
      rw [parseRow_cons_eq]
      by_cases h0 : cleanField r0 = "" ∨ cleanField r1 = ""
      · rw [if_pos h0]
      · rw [if_neg h0, h]
    simp [parseTasklistRows, List.filterMap_cons, hnone]

/-- Witness for `row_defensive_parsing`: a short row, an empty-name row and
a non-numeric-pid row are all dropped while the final well-formed row still
parses, with its memory field normalized. -/
theorem row_defensive_parsing_witness :
    parseTasklistRows
      [["bad"], ["", "1", "c", "1", "2 K"], ["x", "pid", "c", "1", "2 K"],
        ["chrome.exe", "12345", "Console", "1", "150,000 K"]] =
      [⟨"chrome.exe", 12345, "Console", 1, 150000⟩] :=
  (row_defensive_parsing.1 ["bad"] _ (by decide)).trans
    ((row_defensive_parsing.2.1 "" "1" "c" "1" "2 K" [] _ (by decide)).trans
      ((row_defensive_parsing.2.2.1 "x" "pid" "c" "1" "2 K" [] _ (by decide)).trans
        (by decide)))

/-- C8 counterexample: the spec claims every foreground output line not
matching the three tab-delimited fields yields no sample, but on the
two-field line "foo\tbar" (exit code 0) `get_active_window` takes its
`len(parts) >= 2` branch and returns a sample with pid 0. -/
theorem foreground_malformed_counterexample :
    getActiveWindow (ToolRun.ok 0 "foo\tbar" "") = some ⟨"foo", "bar", 0⟩ ∧
    getActiveWindow (ToolRun.ok 0 "foo\tbar" "") ≠ none := by
  decide

/-- C8 amended: every tool failure (missing binary, non-zero exit, timeout,
any other error) yields an empty process list and no foreground sample;
empty or single-field (tab-less) foreground output yields no sample; but a
TWO-field line yields a sample with pid 0 - only outputs with fewer than
two tab-delimited fields are treated as malformed. -/
theorem inspector_failure_tolerance :
    (∀ (code : Int) (out err : String), code ≠ 0 →
      getRunningProcesses (.ok code out err) = [] ∧
      getActiveWindow (.ok code out err) = none) ∧
    (getRunningProcesses .timeout = [] ∧ getRunningProcesses .notFound = [] ∧
      getRunningProcesses .failure = [] ∧ getActiveWindow .timeout = none ∧
      getActiveWindow .notFound = none ∧ getActiveWindow .failure = none) ∧
    (∀ (out err : String), pyStrip out = "" →
      getActiveWindow (.ok 0 out err) = none) ∧
    (∀ (out err x : String), pyStrip out ≠ "" →
      splitChar '\t' (pyStrip out) = [x] →
      getActiveWindow (.ok 0 out err) = none) ∧
    (∀ (out err p0 p1 : String), splitChar '\t' (pyStrip out) = [p0, p1] →
      getActiveWindow (.ok 0 out err) = some ⟨pyStrip p0, pyStrip p1, 0⟩) := by
  refine ⟨?_, by decide, ?_, ?_, ?_⟩
  · intro code out err h
    constructor
    · simp [getRunningProcesses, h]
    · simp [getActiveWindow, h]
  · intro out err h
    simp [getActiveWindow, h]
  · intro out err x h0 hx
    simp [getActiveWindow, h0, hx]
  · intro out err p0 p1 hx
    have h0 : pyStrip out ≠ "" := by
      intro h0
      rw [h0, show splitChar '\t' "" = [""] from by decide] at hx
      simp at hx
    simp [getActiveWindow, h0, hx]

/-- Witness for `inspector_failure_tolerance`: a non-zero exit, an
all-whitespace output, a tab-less output, and a two-field output. -/
theorem inspector_failure_tolerance_witness :
    getRunningProcesses (ToolRun.ok 1 "x" "") = [] ∧
    getActiveWindow (ToolRun.ok 0 "  " "") = none ∧
    getActiveWindow (ToolRun.ok 0 "nofields" "") = none ∧
    getActiveWindow (ToolRun.ok 0 "a\tb" "") = some ⟨"a", "b", 0⟩ :=
  ⟨(inspector_failure_tolerance.1 1 "x" "" (by decide)).1,
   inspector_failure_tolerance.2.2.1 "  " "" (by decide),
   inspector_failure_tolerance.2.2.2.1 "nofields" "" "nofields"
     (by decide) (by decide),
   inspector_failure_tolerance.2.2.2.2 "a\tb" "" "a" "b" (by decide)⟩

/-- The rotating fallback message is never empty and always comes from
FALLBACK_MESSAGES. -/
theorem fallback_msg_facts (i : Nat) :
    fallbackMessages.getD (i % fallbackMessages.length) "" ≠ "" ∧
    fallbackMessages.getD (i % fallbackMessages.length) "" ∈ fallbackMessages := by
  rw [show fallbackMessages.length = 5 from rfl]
  have h : i % 5 = 0 ∨ i % 5 = 1 ∨ i % 5 = 2 ∨ i % 5 = 3 ∨ i % 5 = 4 := by omega
  rcases h with h | h | h | h | h <;> rw [h] <;> exact ⟨by decide, by decide⟩

/-- C9: on every message-generation failure (no client, raising request, or
empty stripped response), `_trigger_intervention` still enters the
intervening state - overlay-active set, last-intervention time set to now -
and the shown text carries the current rotating fallback message, which is
non-empty and drawn from FALLBACK_MESSAGES. -/
theorem intervention_proceeds_on_llm_failure (s : AppState) (nowT : Int)
    (reason : String) (o : LlmOutcome) (hfail : llmFailed o) :
    (triggerIntervention s nowT reason o).state.overlayActive = true ∧
    (triggerIntervention s nowT reason o).state.lastInterventionTime = some nowT ∧
    (triggerIntervention s nowT reason o).display =
      "⚡ " ++ reason ++ "\n\n💬 " ++
        fallbackMessages.getD (s.fallbackIndex % fallbackMessages.length) "" ∧
    fallbackMessages.getD (s.fallbackIndex % fallbackMessages.length) "" ≠ "" ∧
    fallbackMessages.getD (s.fallbackIndex % fallbackMessages.length) ""
      ∈ fallbackMessages := by
  refine ⟨rfl, rfl, ?_, (fallback_msg_facts s.fallbackIndex).1,
    (fallback_msg_facts s.fallbackIndex).2⟩
  rcases hfail with h | h | ⟨r, hr, hstripped⟩
  · subst h; rfl
  · subst h; rfl
  · subst hr
    simp [triggerIntervention, generateScolding, getFallback, hstripped]

/-- Witness for `intervention_proceeds_on_llm_failure` with no client. -/
theorem intervention_proceeds_on_llm_failure_witness :
    (triggerIntervention ⟨false, none, 0, []⟩ 5 "r" LlmOutcome.noClient).state.overlayActive
        = true ∧
    (triggerIntervention ⟨false, none, 0, []⟩ 5 "r" LlmOutcome.noClient).state.lastInterventionTime
        = some 5 ∧
    (triggerIntervention ⟨false, none, 0, []⟩ 5 "r" LlmOutcome.noClient).display =
      "⚡ " ++ "r" ++ "\n\n💬 " ++
        fallbackMessages.getD (0 % fallbackMessages.length) "" ∧
    fallbackMessages.getD (0 % fallbackMessages.length) "" ≠ "" ∧
    fallbackMessages.getD (0 % fallbackMessages.length) "" ∈ fallbackMessages :=
  intervention_proceeds_on_llm_failure ⟨false, none, 0, []⟩ 5 "r"
    LlmOutcome.noClient (Or.inl rfl)

/-- `evalStep` never changes the ledger: the violation branch only flips
the intervention fields. -/
theorem evalStep_ledger (cfg : AppConfig) (s1 : AppState) (today : Nat)
    (nowAbs : Int) (tod : Nat) (env : PollEnv) :
    (evalStep cfg s1 today nowAbs tod env).ledger = s1.ledger := by
  unfold evalStep
  cases (checkViolations cfg s1.lastInterventionTime interventionCooldown
      nowAbs tod ⟨env.running, env.secondActive,
        fun n => getUsageToday s1.ledger today n⟩).1 with
  | some v => rfl
  | none => rfl

/-- In the monitoring state, `_poll` is the record step followed by the
evaluation step. -/
theorem poll_monitoring_eq (cfg : AppConfig) (s : AppState) (today : Nat)
    (nowAbs : Int) (tod : Nat) (env : PollEnv)
    (hmon : s.overlayActive = false) :
    poll cfg s today nowAbs tod env =
      evalStep cfg (recordStep cfg s today nowAbs env.firstActive)
        today nowAbs tod env := by
  unfold poll
  rw [hmon]
  rw [if_neg (show ¬(false = true) from by decide)]

/-- `recordStep` on a present sample, written as its reduced conditional. -/
theorem recordStep_some_eq (cfg : AppConfig) (s : AppState) (today : Nat)
    (nowAbs : Int) (a : ActiveWindowInfo) :
    recordStep cfg s today nowAbs (some a) =
      (if a.processName ≠ "" ∧ a.processName ≠ "Unknown" then
        { s with ledger := (recordUsage s.ledger today a.processName
            a.windowTitle cfg.pollInterval nowAbs) }
      else s) := rfl

/-- C10: on a monitoring tick (overlay inactive), the usage ledger is
unchanged when the foreground sample is absent, has an empty name, or is
the "Unknown" sentinel; otherwise exactly one entry is appended, with
duration equal to the configured poll interval - and nothing later in the
tick (violation evaluation, intervention) touches the ledger. -/
theorem poll_record_frame (cfg : AppConfig) (s : AppState) (today : Nat)
    (nowAbs : Int) (tod : Nat) (env : PollEnv)
    (hmon : s.overlayActive = false) :
    ((env.firstActive = none ∨
        ∃ a, env.firstActive = some a ∧
          (a.processName = "" ∨ a.processName = "Unknown")) →
      (poll cfg s today nowAbs tod env).ledger = s.ledger) ∧
    (∀ a, env.firstActive = some a → a.processName ≠ "" →
      a.processName ≠ "Unknown" →
      (poll cfg s today nowAbs tod env).ledger =
        recordUsage s.ledger today a.processName a.windowTitle
          cfg.pollInterval nowAbs) := by
  constructor
  · intro hskip
    rw [poll_monitoring_eq cfg s today nowAbs tod env hmon, evalStep_ledger]
    rcases hskip with h | ⟨a, ha, hcase⟩
    · rw [h]
      rfl
    · rw [ha, recordStep_some_eq]
      rw [if_neg (by rcases hcase with h | h <;> simp [h])]
  · intro a ha hne hnu
    rw [poll_monitoring_eq cfg s today nowAbs tod env hmon, evalStep_ledger]
    rw [ha, recordStep_some_eq, if_pos ⟨hne, hnu⟩]

/-- Witness for `poll_record_frame`: the "Unknown" sentinel leaves the
ledger empty; a real sample appends one 5-second entry. -/
theorem poll_record_frame_witness :
    (poll ⟨[], 3600, 21600, 7200, 5, true⟩ ⟨false, none, 0, []⟩ 3 0 43200
      ⟨some ⟨"Unknown", "w", 0⟩, [], none, LlmOutcome.noClient⟩).ledger = [] ∧
    (poll ⟨[], 3600, 21600, 7200, 5, true⟩ ⟨false, none, 0, []⟩ 3 0 43200
      ⟨some ⟨"app.exe", "w", 0⟩, [], none, LlmOutcome.noClient⟩).ledger =
      recordUsage [] 3 "app.exe" "w" 5 0 :=
  ⟨(poll_record_frame ⟨[], 3600, 21600, 7200, 5, true⟩ ⟨false, none, 0, []⟩ 3 0 43200
      ⟨some ⟨"Unknown", "w", 0⟩, [], none, LlmOutcome.noClient⟩ rfl).1
      (Or.inr ⟨⟨"Unknown", "w", 0⟩, rfl, Or.inr rfl⟩),
   (poll_record_frame ⟨[], 3600, 21600, 7200, 5, true⟩ ⟨false, none, 0, []⟩ 3 0 43200
      ⟨some ⟨"app.exe", "w", 0⟩, [], none, LlmOutcome.noClient⟩ rfl).2
      ⟨"app.exe", "w", 0⟩ rfl (by decide) (by decide)⟩

end PCLimiter
